import Mathlib

/-!
Verification of the late-bound optional-library access core
(dwriteloader.h / xpsprinthelper.h).

The repository ships only the two public headers; the implementations of
`WPFUtils::LoadDWriteLibraryAndGetProcAddress`, `IsStartXpsPrintJobSupported`
and `LateBoundStartXpsPrintJob` are not under src/.  The behavioral
definitions below are therefore modelled from the specification
(sections 3, 4, 6 and 7), while the function signatures are transcribed
directly from the headers.
-/

namespace OpenCore

/-- HRESULT values are 32-bit result codes; modelled as natural numbers. -/
abbrev HRESULT := Nat

/-- The fixed "operation not implemented" result code E_NOTIMPL
(the header comment calls it E_NOIMPL). -/
def E_NOTIMPL : HRESULT := 0x80004001

/-- Opaque OS handle to a loaded dynamic library; `none` plays the role of
the null HMODULE. -/
abbrev HMODULE := Nat

/-- The seven input arguments of the forwarding entry point, transcribed from
the STARTXPSPRINTJOBFN / LateBoundStartXpsPrintJob parameter lists in
xpsprinthelper.h.  Pointer-typed arguments are nullable, hence Option. -/
structure XpsInputs where
  printerName : Option String
  jobName : Option String
  outputFileName : Option String
  progressEvent : Nat
  completionEvent : Nat
  printablePagesOn : Option (List Nat)
  printablePagesOnCount : Nat

/-- The outcome of one invocation of the underlying feature: the HRESULT
return value plus the three [out] parameters of the signature
(IXpsPrintJob **xpsPrintJob, IXpsPrintJobStream **documentStream,
IXpsPrintJobStream **printTicketStream); `none` means the slot was left
unset (null). -/
structure XpsResult where
  hr : HRESULT
  xpsPrintJob : Option Nat
  documentStream : Option Nat
  printTicketStream : Option Nat

/-- The function-pointer type STARTXPSPRINTJOBFN of xpsprinthelper.h,
modelled semantically: a resolved pointer denotes the function it binds. -/
abbrev STARTXPSPRINTJOBFN := XpsInputs → XpsResult

/-- Modelled from the spec: the OS dynamic-library loader facility consumed
by this core (spec section 6, "external collaborator interfaces"): load a
library by name or path (null handle on failure) and resolve an export by
name inside a loaded library (null pointer when the export is absent).
`π` is the semantic type of a resolved pointer. -/
structure OS (π : Type) where
  loadLibrary : String → Option HMODULE
  getProcAddress : HMODULE → String → Option π

/-- The triple returned by the Library Loader entry point
(spec section 6): library handle, resolved function pointer or null,
and the overall success flag. -/
structure LoadResolveResult (π : Type) where
  library_handle : Option HMODULE
  function_pointer : Option π
  success : Bool

/-- Modelled from the spec: the body of the Library Loader
(`load_and_resolve`, spec sections 4.1 and 6) is not under src/; only its
declaration appears in dwriteloader.h.  A single load attempt, then a single
resolve attempt; on load failure nothing is returned; when the library loads
but the export is absent, the non-null handle is still returned with a null
pointer. -/
def load_and_resolve {π : Type} (os : OS π) (path : String)
    (export_name : String) : LoadResolveResult π :=
  match os.loadLibrary path with
  | none => ⟨none, none, false⟩
  | some h =>
    match os.getProcAddress h export_name with
    | none => ⟨some h, none, false⟩
    | some p => ⟨some h, some p, true⟩

/-- The fixed export resolved by the text-rendering loader instance. -/
def dwriteExportName : String := "DWriteCreateFactory"

/-- Modelled from the spec: the implementation of
WPFUtils::LoadDWriteLibraryAndGetProcAddress is not under src/ (only its
declaration in dwriteloader.h).  It is the Library Loader applied to the
caller-supplied path and the fixed factory-creation export name. -/
def LoadDWriteLibraryAndGetProcAddress {π : Type} (os : OS π)
    (pwszWpftxtPath : String) : LoadResolveResult π :=
  load_and_resolve os pwszWpftxtPath dwriteExportName

/-- Modelled from the spec: the Resolution State of the Capability Prober
(spec section 3), a tri-state value; the implementation behind
xpsprinthelper.h is not under src/. -/
inductive ResolutionState where
  | unresolved
  | resolvedSupported (fp : STARTXPSPRINTJOBFN)
  | resolvedUnsupported

/-- Whether a Resolution State is one of the two terminal states. -/
def ResolutionState.isTerminal : ResolutionState → Bool
  | .unresolved => false
  | .resolvedSupported _ => true
  | .resolvedUnsupported => true

/-- Whether a Resolution State is the Resolved-Supported state. -/
def ResolutionState.isSupported : ResolutionState → Bool
  | .resolvedSupported _ => true
  | _ => false

/-- The process-wide mutable state of the Capability Prober: the Resolution
State, plus the load-count instrumentation hook of spec section 8 counting
invocations of the Library Loader. -/
structure ProberState where
  resolution : ResolutionState
  loadCount : Nat

/-- The Prober state at process start: Resolution State unresolved, the
library loader never yet invoked. -/
def initState : ProberState := ⟨.unresolved, 0⟩

/-- The fixed well-known library name probed by the Capability Prober
(header comment: xpsprint.dll). -/
def xpsLibraryName : String := "xpsprint.dll"

/-- The fixed target export name of the Capability Prober
(header comment: StartXpsPrintJob). -/
def xpsExportName : String := "StartXpsPrintJob"

/-- Modelled from the spec: the one-time resolution attempt of the Capability
Prober (spec section 4.2, state Unresolved): use the Library Loader on the
fixed library and export names; success stores the function pointer,
any failure folds into Resolved-Unsupported. -/
def resolveFeature (os : OS STARTXPSPRINTJOBFN) : ResolutionState :=
  match (load_and_resolve os xpsLibraryName xpsExportName).function_pointer with
  | some fp => .resolvedSupported fp
  | none => .resolvedUnsupported

/-- Modelled from the spec: lazy one-time resolution (spec section 4.2,
"on first entry to either operation, perform resolution"); a terminal state
is reused untouched, the loader is not re-invoked. -/
def ensureResolved (os : OS STARTXPSPRINTJOBFN) (s : ProberState) : ProberState :=
  match s.resolution with
  | .unresolved => ⟨resolveFeature os, s.loadCount + 1⟩
  | .resolvedSupported _ => s
  | .resolvedUnsupported => s

/-- Modelled from the spec: the capability check declared in
xpsprinthelper.h, whose body is not under src/.  Resolves lazily, then
reports whether the terminal state is Resolved-Supported; returns the value
together with the updated Prober state. -/
def IsStartXpsPrintJobSupported (os : OS STARTXPSPRINTJOBFN)
    (s : ProberState) : Bool × ProberState :=
  let t := ensureResolved os s
  (t.resolution.isSupported, t)

/-- Modelled from the spec: the forwarding entry point declared in
xpsprinthelper.h, whose body is not under src/.  Resolves lazily; in the
Resolved-Supported state the cached pointer is invoked on the caller's
arguments and its outcome returned verbatim; otherwise the fixed E_NOTIMPL
result is returned with all three output slots left unset. -/
def LateBoundStartXpsPrintJob (os : OS STARTXPSPRINTJOBFN) (args : XpsInputs)
    (s : ProberState) : XpsResult × ProberState :=
  let t := ensureResolved os s
  match t.resolution with
  | .resolvedSupported fp => (fp args, t)
  | .unresolved => (⟨E_NOTIMPL, none, none, none⟩, t)
  | .resolvedUnsupported => (⟨E_NOTIMPL, none, none, none⟩, t)

/-- One observable operation on the Capability Prober. -/
inductive ProberOp where
  | check
  | invoke (args : XpsInputs)

/-- State effect of one Prober operation. -/
def stepOp (os : OS STARTXPSPRINTJOBFN) (s : ProberState) :
    ProberOp → ProberState
  | .check => (IsStartXpsPrintJobSupported os s).2
  | .invoke args => (LateBoundStartXpsPrintJob os args s).2

/-- State effect of a sequence of Prober operations, first operation first. -/
def runOps (os : OS STARTXPSPRINTJOBFN) (ops : List ProberOp)
    (s : ProberState) : ProberState :=
  ops.foldl (stepOp os) s

/-- Direction annotation of a C parameter: [in] or [out]. -/
inductive CDir where
  | inDir
  | outDir
deriving DecidableEq

/-- The C types appearing in the two signatures of xpsprinthelper.h. -/
inductive CType where
  | lpcwstrTy
  | handleTy
  | uint8PtrTy
  | uint32Ty
  | xpsPrintJobPtrPtrTy
  | xpsPrintJobStreamPtrPtrTy
  | hresultTy
deriving DecidableEq

/-- One parameter of a C signature: its name, direction and type. -/
structure CParam where
  pname : String
  dir : CDir
  ty : CType
deriving DecidableEq

/-- The parameter list of the STARTXPSPRINTJOBFN typedef, transcribed from
xpsprinthelper.h lines 6 to 17. -/
def STARTXPSPRINTJOBFN_params : List CParam :=
  [⟨"printerName", .inDir, .lpcwstrTy⟩,
   ⟨"jobName", .inDir, .lpcwstrTy⟩,
   ⟨"outputFileName", .inDir, .lpcwstrTy⟩,
   ⟨"progressEvent", .inDir, .handleTy⟩,
   ⟨"completionEvent", .inDir, .handleTy⟩,
   ⟨"printablePagesOn", .inDir, .uint8PtrTy⟩,
   ⟨"printablePagesOnCount", .inDir, .uint32Ty⟩,
   ⟨"xpsPrintJob", .outDir, .xpsPrintJobPtrPtrTy⟩,
   ⟨"documentStream", .outDir, .xpsPrintJobStreamPtrPtrTy⟩,
   ⟨"printTicketStream", .outDir, .xpsPrintJobStreamPtrPtrTy⟩]

/-- The return type of STARTXPSPRINTJOBFN: HRESULT. -/
def STARTXPSPRINTJOBFN_ret : CType := .hresultTy

/-- The parameter list of the LateBoundStartXpsPrintJob declaration,
transcribed from xpsprinthelper.h lines 24 to 36. -/
def LateBoundStartXpsPrintJob_params : List CParam :=
  [⟨"printerName", .inDir, .lpcwstrTy⟩,
   ⟨"jobName", .inDir, .lpcwstrTy⟩,
   ⟨"outputFileName", .inDir, .lpcwstrTy⟩,
   ⟨"progressEvent", .inDir, .handleTy⟩,
   ⟨"completionEvent", .inDir, .handleTy⟩,
   ⟨"printablePagesOn", .inDir, .uint8PtrTy⟩,
   ⟨"printablePagesOnCount", .inDir, .uint32Ty⟩,
   ⟨"xpsPrintJob", .outDir, .xpsPrintJobPtrPtrTy⟩,
   ⟨"documentStream", .outDir, .xpsPrintJobStreamPtrPtrTy⟩,
   ⟨"printTicketStream", .outDir, .xpsPrintJobStreamPtrPtrTy⟩]

/-- The return type of LateBoundStartXpsPrintJob: HRESULT. -/
def LateBoundStartXpsPrintJob_ret : CType := .hresultTy

/-- The [out] parameters of a C signature. -/
def outParamsOf (ps : List CParam) : List CParam :=
  ps.filter (fun p => decide (p.dir = CDir.outDir))

/-- An OS on which the library loads and the export resolves; resolved
pointers are plain numbers (the text-rendering loader instance). -/
def osBoth : OS Nat := ⟨fun _ => some 5, fun _ _ => some 7⟩

/-- An OS on which the library does not load at all. -/
def osNoLib : OS Nat := ⟨fun _ => none, fun _ _ => none⟩

/-- An OS on which the library loads but the export is absent. -/
def osNoSym : OS Nat := ⟨fun _ => some 5, fun _ _ => none⟩

/-- A concrete underlying feature function, echoing the mask length in its
result code so that argument forwarding is observable. -/
def fpEcho : STARTXPSPRINTJOBFN :=
  fun args => ⟨args.printablePagesOnCount, some 1, some 2, some 3⟩

/-- An OS for the Capability Prober on which the feature resolves to
fpEcho. -/
def osXSupp : OS STARTXPSPRINTJOBFN := ⟨fun _ => some 3, fun _ _ => some fpEcho⟩

/-- An OS for the Capability Prober lacking the optional library. -/
def osXNone : OS STARTXPSPRINTJOBFN := ⟨fun _ => none, fun _ _ => none⟩

/-- Concrete forwarding-call arguments with a null printable-pages mask of
length zero. -/
def argsNullMask : XpsInputs := ⟨none, none, none, 0, 0, none, 0⟩

/-- Claim C2: for every call to the Library Loader entry point, the returned
library handle is non-null iff the load succeeded (independent of the resolve
outcome), the returned function pointer is non-null iff the success flag is
set, success holds iff both steps succeeded, and the load-ok/resolve-missing
outcome returns the non-null handle with a null pointer, distinguishable from
a total load failure. -/
theorem C2_loader_contract {π : Type} (os : OS π) (path : String) :
    ((LoadDWriteLibraryAndGetProcAddress os path).library_handle.isSome
      = (os.loadLibrary path).isSome)
    ∧ ((LoadDWriteLibraryAndGetProcAddress os path).function_pointer.isSome
      = (LoadDWriteLibraryAndGetProcAddress os path).success)
    ∧ ((LoadDWriteLibraryAndGetProcAddress os path).success = true ↔
      ∃ h p, os.loadLibrary path = some h
        ∧ os.getProcAddress h dwriteExportName = some p)
    ∧ (∀ h, os.loadLibrary path = some h →
        os.getProcAddress h dwriteExportName = none →
        LoadDWriteLibraryAndGetProcAddress os path = ⟨some h, none, false⟩) := by
  rcases hl : os.loadLibrary path with _ | h
  · simp [LoadDWriteLibraryAndGetProcAddress, load_and_resolve, hl]
  · rcases hp : os.getProcAddress h dwriteExportName with _ | p
    · simp [LoadDWriteLibraryAndGetProcAddress, load_and_resolve, hl, hp]
    · simp [LoadDWriteLibraryAndGetProcAddress, load_and_resolve, hl, hp]

/-- Concrete instance of the C2 contract: on an OS where the library loads
but the export is absent, the loader returns the non-null handle, null
pointer and failure. -/
theorem C2_loader_contract_witness :
    LoadDWriteLibraryAndGetProcAddress osNoSym "wpftxt.dll"
      = ⟨some 5, none, false⟩ :=
  (C2_loader_contract osNoSym "wpftxt.dll").2.2.2 5 rfl rfl

/-- Claim C6: when the library cannot be loaded at all, the Library Loader
reports failure with a null handle and a null function pointer; the full
result record carries no partial handle. -/
theorem C6_total_load_failure {π : Type} (os : OS π) (path : String)
    (h : os.loadLibrary path = none) :
    LoadDWriteLibraryAndGetProcAddress os path = ⟨none, none, false⟩ := by
  simp [LoadDWriteLibraryAndGetProcAddress, load_and_resolve, h]

/-- Concrete instance of C6: a missing library yields the all-null failing
result. -/
theorem C6_total_load_failure_witness :
    osNoLib.loadLibrary "missing.dll" = none
    ∧ LoadDWriteLibraryAndGetProcAddress osNoLib "missing.dll"
        = ⟨none, none, false⟩ :=
  ⟨rfl, C6_total_load_failure osNoLib "missing.dll" rfl⟩

/-- The one-time resolution attempt always lands in a terminal state. -/
theorem resolveFeature_isTerminal (os : OS STARTXPSPRINTJOBFN) :
    (resolveFeature os).isTerminal = true := by
  unfold resolveFeature
  rcases (load_and_resolve os xpsLibraryName xpsExportName).function_pointer
    with _ | fp <;> rfl

/-- Lazy resolution leaves a terminal state untouched. -/
theorem ensureResolved_of_terminal (os : OS STARTXPSPRINTJOBFN)
    (s : ProberState) (h : s.resolution.isTerminal = true) :
    ensureResolved os s = s := by
  cases hr : s.resolution with
  | unresolved => rw [hr] at h; simp [ResolutionState.isTerminal] at h
  | resolvedSupported fp => simp [ensureResolved, hr]
  | resolvedUnsupported => simp [ensureResolved, hr]

/-- The post state of a forwarding call is the lazily resolved state. -/
theorem LateBound_snd (os : OS STARTXPSPRINTJOBFN) (args : XpsInputs)
    (s : ProberState) :
    (LateBoundStartXpsPrintJob os args s).2 = ensureResolved os s := by
  cases hr : (ensureResolved os s).resolution <;>
    simp [LateBoundStartXpsPrintJob, hr]

/-- Either prober operation leaves a terminal state untouched. -/
theorem stepOp_of_terminal (os : OS STARTXPSPRINTJOBFN) (s : ProberState)
    (op : ProberOp) (h : s.resolution.isTerminal = true) :
    stepOp os s op = s := by
  cases op with
  | check =>
      show (ensureResolved os s) = s
      exact ensureResolved_of_terminal os s h
  | invoke args =>
      show (LateBoundStartXpsPrintJob os args s).2 = s
      rw [LateBound_snd]
      exact ensureResolved_of_terminal os s h

/-- Either prober operation run on an unresolved state commits the single
resolution outcome and charges one loader invocation. -/
theorem stepOp_of_unresolved (os : OS STARTXPSPRINTJOBFN) (n : Nat)
    (op : ProberOp) :
    stepOp os ⟨.unresolved, n⟩ op = ⟨resolveFeature os, n + 1⟩ := by
  cases op with
  | check => rfl
  | invoke args =>
      show (LateBoundStartXpsPrintJob os args ⟨.unresolved, n⟩).2 = _
      rw [LateBound_snd]
      rfl

/-- Operation sequences leave a terminal state untouched. -/
theorem runOps_of_terminal (os : OS STARTXPSPRINTJOBFN)
    (ops : List ProberOp) (s : ProberState)
    (h : s.resolution.isTerminal = true) :
    runOps os ops s = s := by
  induction ops with
  | nil => rfl
  | cons op rest ih =>
      show runOps os rest (stepOp os s op) = s
      rw [stepOp_of_terminal os s op h]
      exact ih

/-- Any run from the initial state either performed no operation, or has
committed the single resolution outcome with exactly one loader call. -/
theorem runOps_init_cases (os : OS STARTXPSPRINTJOBFN)
    (ops : List ProberOp) :
    (ops = [] ∧ runOps os ops initState = initState)
    ∨ (ops ≠ [] ∧ runOps os ops initState = ⟨resolveFeature os, 1⟩) := by
  cases ops with
  | nil => exact Or.inl ⟨rfl, rfl⟩
  | cons op rest =>
      refine Or.inr ⟨by simp, ?_⟩
      show runOps os rest (stepOp os initState op) = _
      rw [show stepOp os initState op = ⟨resolveFeature os, 1⟩ from
        stepOp_of_unresolved os 0 op]
      exact runOps_of_terminal os rest _ (resolveFeature_isTerminal os)

/-- Claim C1 as frozen is refuted on the signature: the forwarding entry
point of xpsprinthelper.h has exactly three [out] parameters (xpsPrintJob,
documentStream, printTicketStream), not four. -/
theorem C1_out_param_count_counterexample :
    (outParamsOf LateBoundStartXpsPrintJob_params).length = 3
    ∧ ((outParamsOf LateBoundStartXpsPrintJob_params).length == 4) = false := by
  decide

/-- Claim C1 (amended to three output parameters): every forwarding call
made in the Resolved-Unsupported state, for any arguments including a null
or zero-length printable-pages mask, performs no library interaction (the
Prober state, its load count included, is returned unchanged), yields the
fixed E_NOTIMPL result code, and leaves all three output slots unset. -/
theorem C1_unsupported_fixed_result (os : OS STARTXPSPRINTJOBFN)
    (args : XpsInputs) (s : ProberState)
    (h : s.resolution = .resolvedUnsupported) :
    LateBoundStartXpsPrintJob os args s = (⟨E_NOTIMPL, none, none, none⟩, s) := by
  simp [LateBoundStartXpsPrintJob, ensureResolved, h]

/-- Concrete instance of amended C1: a call in the Resolved-Unsupported
state with a null zero-length mask returns E_NOTIMPL and changes nothing. -/
theorem C1_unsupported_fixed_result_witness :
    (⟨.resolvedUnsupported, 1⟩ : ProberState).resolution = .resolvedUnsupported
    ∧ LateBoundStartXpsPrintJob osXNone argsNullMask ⟨.resolvedUnsupported, 1⟩
        = (⟨E_NOTIMPL, none, none, none⟩, ⟨.resolvedUnsupported, 1⟩) :=
  ⟨rfl, C1_unsupported_fixed_result osXNone argsNullMask
    ⟨.resolvedUnsupported, 1⟩ rfl⟩

/-- Claim C3: the Resolution State starts Unresolved with the loader never
invoked; the resolution outcome is terminal; after any nonempty operation
sequence the process state is that single terminal outcome with the loader
invoked exactly once; and either operation leaves any terminal state (and
its load count) untouched, so no transition ever leaves a terminal state
and the cached outcome is reused without re-invoking the loader. -/
theorem C3_resolution_state_machine (os : OS STARTXPSPRINTJOBFN) :
    (initState.resolution = .unresolved ∧ initState.loadCount = 0)
    ∧ (resolveFeature os).isTerminal = true
    ∧ (∀ ops : List ProberOp, ops ≠ [] →
        runOps os ops initState = ⟨resolveFeature os, 1⟩)
    ∧ (∀ s : ProberState, s.resolution.isTerminal = true →
        ∀ op : ProberOp, stepOp os s op = s) := by
  refine ⟨⟨rfl, rfl⟩, resolveFeature_isTerminal os, ?_, ?_⟩
  · intro ops hne
    rcases runOps_init_cases os ops with ⟨he, _⟩ | ⟨_, hr⟩
    · exact absurd he hne
    · exact hr
  · intro s hs op
    exact stepOp_of_terminal os s op hs

/-- Concrete instance of C3: one check call from the initial state commits
the resolution outcome with one loader call, and a later check on the
terminal state changes nothing. -/
theorem C3_resolution_state_machine_witness :
    runOps osXNone [ProberOp.check] initState = ⟨resolveFeature osXNone, 1⟩
    ∧ stepOp osXNone ⟨.resolvedUnsupported, 1⟩ ProberOp.check
        = ⟨.resolvedUnsupported, 1⟩ :=
  ⟨(C3_resolution_state_machine osXNone).2.2.1 [ProberOp.check] (by simp),
   (C3_resolution_state_machine osXNone).2.2.2 ⟨.resolvedUnsupported, 1⟩ rfl
     ProberOp.check⟩

/-- Claim C4: any two capability-check calls within one process return the
same boolean, whatever operation sequences precede each call. -/
theorem C4_check_stable (os : OS STARTXPSPRINTJOBFN)
    (ops1 ops2 : List ProberOp) :
    (IsStartXpsPrintJobSupported os (runOps os ops1 initState)).1
      = (IsStartXpsPrintJobSupported os (runOps os ops2 initState)).1 := by
  have key : ∀ ops : List ProberOp,
      (IsStartXpsPrintJobSupported os (runOps os ops initState)).1
        = (resolveFeature os).isSupported := by
    intro ops
    rcases runOps_init_cases os ops with ⟨_, he⟩ | ⟨_, he⟩
    · rw [he]; rfl
    · rw [he]
      show (ensureResolved os ⟨resolveFeature os, 1⟩).resolution.isSupported = _
      rw [ensureResolved_of_terminal os _ (resolveFeature_isTerminal os)]
  rw [key ops1, key ops2]

/-- Claim C5: in the Resolved-Supported state the forwarding call applies
the cached function to the caller's arguments unmodified and returns its
result code and output values verbatim, with the Prober state untouched. -/
theorem C5_forward_verbatim (os : OS STARTXPSPRINTJOBFN) (args : XpsInputs)
    (s : ProberState) (fp : STARTXPSPRINTJOBFN)
    (h : s.resolution = .resolvedSupported fp) :
    LateBoundStartXpsPrintJob os args s = (fp args, s) := by
  simp [LateBoundStartXpsPrintJob, ensureResolved, h]

/-- Concrete instance of C5: with the cached echo function, the forwarding
call returns exactly that function's value at the given arguments. -/
theorem C5_forward_verbatim_witness :
    (⟨.resolvedSupported fpEcho, 1⟩ : ProberState).resolution
        = .resolvedSupported fpEcho
    ∧ LateBoundStartXpsPrintJob osXSupp argsNullMask
        ⟨.resolvedSupported fpEcho, 1⟩
        = (fpEcho argsNullMask, ⟨.resolvedSupported fpEcho, 1⟩) :=
  ⟨rfl, C5_forward_verbatim osXSupp argsNullMask
    ⟨.resolvedSupported fpEcho, 1⟩ fpEcho rfl⟩

/-- Claim C7: invoking the forwarding entry point as the very first prober
operation triggers resolution implicitly and is observably identical — same
result code and outputs, same post state, same subsequent capability-check
value — to checking the capability first and invoking second. -/
theorem C7_invoke_first_equiv (os : OS STARTXPSPRINTJOBFN)
    (args : XpsInputs) :
    LateBoundStartXpsPrintJob os args initState
      = LateBoundStartXpsPrintJob os args
          (IsStartXpsPrintJobSupported os initState).2
    ∧ (IsStartXpsPrintJobSupported os
        (LateBoundStartXpsPrintJob os args initState).2).1
      = (IsStartXpsPrintJobSupported os
          (LateBoundStartXpsPrintJob os args
            (IsStartXpsPrintJobSupported os initState).2).2).1 := by
  have h2 : (IsStartXpsPrintJobSupported os initState).2
      = ⟨resolveFeature os, 1⟩ := rfl
  have hel : ensureResolved os initState = ⟨resolveFeature os, 1⟩ := rfl
  have he : ensureResolved os ⟨resolveFeature os, 1⟩ = ⟨resolveFeature os, 1⟩ :=
    ensureResolved_of_terminal os _ (resolveFeature_isTerminal os)
  constructor
  · simp only [LateBoundStartXpsPrintJob, h2, he, hel]
  · rw [LateBound_snd, LateBound_snd, h2, he, hel]

/-- Claim C9: load or resolve failures are always delivered as boolean or
result-code outcomes on the normal return channel: a loader call that did
not fully succeed reports success = false, and a prober whose resolution
failed reports false from the capability check and the fixed E_NOTIMPL
result code with unset outputs from the forwarding call. -/
theorem C9_failures_as_result_codes {π : Type} (os : OS π)
    (osx : OS STARTXPSPRINTJOBFN) (path export_name : String)
    (args : XpsInputs) :
    ((load_and_resolve os path export_name).function_pointer = none →
      (load_and_resolve os path export_name).success = false)
    ∧ (resolveFeature osx = .resolvedUnsupported →
        (IsStartXpsPrintJobSupported osx initState).1 = false
        ∧ (LateBoundStartXpsPrintJob osx args initState).1
            = ⟨E_NOTIMPL, none, none, none⟩) := by
  constructor
  · intro hf
    rcases hl : os.loadLibrary path with _ | h
    · simp [load_and_resolve, hl]
    · rcases hp : os.getProcAddress h export_name with _ | p
      · simp [load_and_resolve, hl, hp]
      · simp [load_and_resolve, hl, hp] at hf
  · intro hu
    constructor
    · show (ensureResolved osx initState).resolution.isSupported = false
      simp [ensureResolved, initState, hu, ResolutionState.isSupported]
    · simp [LateBoundStartXpsPrintJob, ensureResolved, initState, hu]

/-- Concrete instance of C9: on an OS lacking the optional library, the
capability check reports false and the forwarding call reports E_NOTIMPL
with unset outputs. -/
theorem C9_failures_as_result_codes_witness :
    (IsStartXpsPrintJobSupported osXNone initState).1 = false
    ∧ (LateBoundStartXpsPrintJob osXNone argsNullMask initState).1
        = ⟨E_NOTIMPL, none, none, none⟩ :=
  (C9_failures_as_result_codes osNoLib osXNone "missing.dll" "sym"
    argsNullMask).2 rfl

/-- Claim C10: the forwarding entry point has a parameter list and a return
type identical, parameter for parameter, to the STARTXPSPRINTJOBFN
function-pointer type, and in the Resolved-Supported state the forwarding
call is extensionally equal to the cached underlying function. -/
theorem C10_signature_identical :
    LateBoundStartXpsPrintJob_params = STARTXPSPRINTJOBFN_params
    ∧ LateBoundStartXpsPrintJob_ret = STARTXPSPRINTJOBFN_ret
    ∧ ∀ (os : OS STARTXPSPRINTJOBFN) (fp : STARTXPSPRINTJOBFN) (n : Nat)
        (args : XpsInputs),
        (LateBoundStartXpsPrintJob os args ⟨.resolvedSupported fp, n⟩).1
          = fp args := by
  refine ⟨rfl, rfl, ?_⟩
  intro os fp n args
  rfl

end OpenCore
